import Mathlib

/- Verification of the goverrun load-testing engine: a shallow embedding of
   its response/assertion layer, stats archiving, scheduler arithmetic,
   expectation evaluation and registration logic, with theorems about the
   behaviours its documentation describes. -/

namespace Goverrun

/-- Transport-level error as the engine observes it: whether the Go type
assertion to net.Error succeeds, whether netErr.Timeout() reports a deadline
breach, and the deepest unwrapped cause string (what UnwrapDeepestError
would return for this error). -/
structure GoError where
  isNetError : Bool
  isTimeout : Bool
  rootCause : String
deriving DecidableEq

/-- Timestamps struct: the four timing landmarks, as integer nanosecond
instants. Go time.Time zero value (IsZero) is modelled as the instant 0. -/
structure TimestampsL where
  start : ℤ := 0
  wroteRequest : ℤ := 0
  gotFirstResponseByte : ℤ := 0
  done : ℤ := 0
deriving DecidableEq

/-- Response struct, with the fields the verified operations read or write.
The Step back-pointer is not carried; operations that consult it
(ArchiveStats) receive the step data as arguments instead. Field defaults
are the Go zero values. -/
structure ResponseL where
  scenario : String := ""
  requestURL : String := ""
  finalURL : String := ""
  requestSize : ℤ := 0
  responseSize : ℤ := 0
  statusCode : ℤ := 0
  status : String := ""
  timestamps : TimestampsL := {}
  timeout : Option GoError := none
  error : Option GoError := none
  assertionFailed : String := ""
  body : String := ""
  archived : Bool := false
deriving DecidableEq

/-- Response.ConsideredUnsuccessful: an earlier assertion failed, or an
error, or a timeout happened. -/
def consideredUnsuccessful (response : ResponseL) : Bool :=
  decide (0 < response.assertionFailed.length) || response.error.isSome ||
    response.timeout.isSome

/-- Response.MarkAsFailed stores the failure message (the verbose log is
not modelled). -/
def markAsFailed (response : ResponseL) (message : String) : ResponseL :=
  { response with assertionFailed := message }

/-- Regexp value: its source pattern (what fmt prints for it) and its
Match function on the body, abstracting the Go regexp engine. -/
structure RegexpL where
  pattern : String
  isMatch : String → Bool

/-- Whether the character list needle occurs inside hay, modelling
strings.Contains on the body bytes. -/
def listContainsSub (hay needle : List Char) : Bool :=
  match hay with
  | [] => needle.isEmpty
  | _ :: rest => needle.isPrefixOf hay || listContainsSub rest needle

/-- strings.Contains on strings. -/
def strContains (s sub : String) : Bool :=
  listContainsSub s.data sub.data

/-- Response.Assert with an arbitrary predicate function. -/
def assertFn (fn : ResponseL → String × Bool) (response : ResponseL) : ResponseL :=
  if consideredUnsuccessful response then response
  else
    let mo := fn response
    if mo.2 then response
    else markAsFailed response ("assertion of function on response failed " ++ mo.1)

/-- Response.AssertStatusCode. -/
def assertStatusCode (statusCode : ℤ) (response : ResponseL) : ResponseL :=
  if consideredUnsuccessful response then response
  else if response.statusCode = statusCode then response
  else
    markAsFailed response
      ("assertion of status code failed: got " ++ toString response.statusCode ++
        " want " ++ toString statusCode)

/-- Response.AssertStatus. -/
def assertStatus (status : String) (response : ResponseL) : ResponseL :=
  if consideredUnsuccessful response then response
  else if response.status = status then response
  else
    markAsFailed response
      ("assertion of status failed: got " ++ response.status ++ " want " ++ status)

/-- Response.AssertBodyMatches. -/
def assertBodyMatches (re : RegexpL) (response : ResponseL) : ResponseL :=
  if consideredUnsuccessful response then response
  else if re.isMatch response.body then response
  else
    markAsFailed response
      ("assertion of body content failed (response body did not match expected regular expression): "
        ++ re.pattern)

/-- Response.AssertBodyContains. -/
def assertBodyContains (s : String) (response : ResponseL) : ResponseL :=
  if consideredUnsuccessful response then response
  else if strContains response.body s then response
  else
    markAsFailed response
      ("assertion of body content failed (response body did not contain expected value): " ++ s)

/-- Response.AssertBodySizeAtLeast. -/
def assertBodySizeAtLeast (bytes : ℤ) (response : ResponseL) : ResponseL :=
  if consideredUnsuccessful response then response
  else
    let length : ℤ := response.body.length
    if bytes ≤ length then response
    else
      markAsFailed response
        ("assertion of body size failed (response body was shorter than expected value): got "
          ++ toString length ++ " want >=" ++ toString bytes)

/-- Response.AssertBodySizeAtMost. -/
def assertBodySizeAtMost (bytes : ℤ) (response : ResponseL) : ResponseL :=
  if consideredUnsuccessful response then response
  else
    let length : ℤ := response.body.length
    if length ≤ bytes then response
    else
      markAsFailed response
        ("assertion of body size failed (response body was longer than expected value): got "
          ++ toString length ++ " want <=" ++ toString bytes)

/-- One assertion invocation from the fluent chain. -/
inductive AssertOp where
  | fn (f : ResponseL → String × Bool)
  | statusCode (c : ℤ)
  | status (s : String)
  | bodyMatches (re : RegexpL)
  | bodyContains (s : String)
  | bodySizeAtLeast (n : ℤ)
  | bodySizeAtMost (n : ℤ)

/-- Apply one assertion operation to a response. -/
def applyAssertOp : AssertOp → ResponseL → ResponseL
  | .fn f, r => assertFn f r
  | .statusCode c, r => assertStatusCode c r
  | .status s, r => assertStatus s r
  | .bodyMatches re, r => assertBodyMatches re r
  | .bodyContains s, r => assertBodyContains s r
  | .bodySizeAtLeast n, r => assertBodySizeAtLeast n r
  | .bodySizeAtMost n, r => assertBodySizeAtMost n r

/-- Apply a chain of assertion operations left to right. -/
def applyAssertOps (ops : List AssertOp) (r : ResponseL) : ResponseL :=
  ops.foldl (fun acc op => applyAssertOp op acc) r

/-- Error classification in executeRequestWithTracing: a net.Error whose
Timeout() is true becomes the Timeout field (if no Error was recorded),
any other error becomes the Error field (if no Timeout was recorded). -/
def classifyNetError (rsp : ResponseL) (e : Option GoError) : ResponseL :=
  match e with
  | none => rsp
  | some err =>
    if err.isNetError && err.isTimeout && rsp.error.isNone then
      { rsp with timeout := some err }
    else if rsp.timeout.isNone then { rsp with error := some err }
    else rsp

/-- How many of the three failure fields are set on a response. -/
def failureCount (r : ResponseL) : ℕ :=
  (if r.timeout.isSome then 1 else 0) + (if r.error.isSome then 1 else 0) +
    (if 0 < r.assertionFailed.length then 1 else 0)

/-- At most one of Timeout, Error, AssertionFailed is set. -/
def AtMostOneFailure (r : ResponseL) : Prop :=
  failureCount r ≤ 1

instance (r : ResponseL) : Decidable (AtMostOneFailure r) := by
  unfold AtMostOneFailure; infer_instance

/-- The Response executeRequestWithTracing builds: fresh failure fields,
then classification of the error from HttpClient.Do and of the error from
reading the body, then the transported status, body and sizes. The
transport results themselves (ts, doErr, readErr, statusCode, status,
finalURL, body and the sizes) are inputs of the model. -/
def responseAfterSend (scenario requestURL : String) (ts : TimestampsL)
    (doErr readErr : Option GoError) (statusCode : ℤ)
    (status finalURL body : String) (requestSize responseSize : ℤ) : ResponseL :=
  let rsp : ResponseL := { scenario := scenario, requestURL := requestURL, timestamps := ts }
  let rsp := classifyNetError rsp doErr
  let rsp := classifyNetError rsp readErr
  { rsp with statusCode := statusCode, status := status, finalURL := finalURL,
             body := body, requestSize := requestSize, responseSize := responseSize }

/-- StepEntry: the persisted per-request record written to a step log. -/
structure StepEntryL where
  scenario : String := ""
  timestamps : TimestampsL := {}
  timeout : Bool := false
  timeoutRootCause : String := ""
  error : Bool := false
  errorRootCause : String := ""
  assertionFailed : Bool := false
  assertionFailedRootCause : String := ""
  statusCode : ℤ := 0
  requestSize : ℤ := 0
  responseSize : ℤ := 0
deriving DecidableEq

/-- UnwrapDeepestError on an optional error: the empty string for nil,
otherwise the deepest unwrapped cause (carried by the GoError model). -/
def unwrapDeepestError : Option GoError → String
  | none => ""
  | some e => e.rootCause

/-- Response.stepEntry: the StepEntry built from a Response. -/
def stepEntry (response : ResponseL) : StepEntryL :=
  { scenario := response.scenario
    timeout := response.timeout.isSome
    timeoutRootCause := unwrapDeepestError response.timeout
    error := response.error.isSome
    errorRootCause := unwrapDeepestError response.error
    assertionFailed := 0 < response.assertionFailed.length
    assertionFailedRootCause := response.assertionFailed
    statusCode := response.statusCode
    timestamps := response.timestamps
    requestSize := response.requestSize
    responseSize := response.responseSize }

/-- Response.ArchiveStats: appends the StepEntry of the response to the log
for its step and sets the archived flag, but only when an output folder is
configured and the response is not archived yet. The lazily created writer
(which first records the step name and expectation, not a StepEntry) and
the file locking are not modelled; the log is the sequence of StepEntry
records of this step. -/
def archiveStats (folder : String) (log : List StepEntryL) (response : ResponseL) :
    ResponseL × List StepEntryL :=
  if 0 < folder.length ∧ response.archived = false then
    ({ response with archived := true }, log ++ [stepEntry response])
  else (response, log)

/-- The local end of Run: now + RampUp + Plateau + RampDown. Durations are
nonnegative nanosecond counts (AddScenario rejects negative durations), so
the scheduler arithmetic lives in the natural numbers, where division is
the same truncated division Go performs on int64. -/
def scheduleEnd (now rampUp plateau rampDown : ℕ) : ℕ :=
  now + rampUp + plateau + rampDown

/-- rampDownPhaseEntry in Run: end minus RampDown. -/
def rampDownPhaseEntry (now rampUp plateau rampDown : ℕ) : ℕ :=
  scheduleEnd now rampUp plateau rampDown - rampDown

/-- rampDownStep in Run: RampDown divided by LoopingUsers (truncated). -/
def rampDownStep (rampDown loopingUsers : ℕ) : ℕ :=
  rampDown / loopingUsers

/-- rampDownCutoffForCurrentUser in Run, for user number i. -/
def rampDownCutoffForCurrentUser (now rampUp plateau rampDown loopingUsers i : ℕ) : ℕ :=
  rampDownPhaseEntry now rampUp plateau rampDown + i * rampDownStep rampDown loopingUsers

/-- The per-user loop state Run mutates: the loop counter of the user, the
execution count of the scenario, and the Disabled flag. -/
structure UserLoopState where
  currentLoop : ℕ := 0
  executionCount : ℕ := 0
  disabled : Bool := false
deriving DecidableEq

/-- The user-task loop of Run. Each iteration observes the clock twice:
first for the loop guard (before end) and, after the runner finished, for
the ramp-down check (after the personal cutoff); the list holds these
observation pairs in order. The gauge is the looping-users counter of the
scenario. Runner effects and think-times are outside this state. -/
def runUserLoop (endTime cutoff : ℕ) :
    List (ℕ × ℕ) → ℤ → UserLoopState → ℤ × UserLoopState
  | [], gauge, u => (gauge, u)
  | t :: rest, gauge, u =>
    if t.1 < endTime then
      let u1 : UserLoopState :=
        { u with currentLoop := u.currentLoop + 1, executionCount := u.executionCount + 1 }
      if cutoff < t.2 then (gauge - 1, { u1 with disabled := true })
      else runUserLoop endTime cutoff rest gauge u1
    else (gauge, u)

/-- Timestamps.TimeToFirstByte: measured from Start, or from WroteRequest
when afterRequestSent is set; incomplete when GotFirstResponseByte or
WroteRequest is unset; clamped to zero when negative. -/
def timeToFirstByte (stats : TimestampsL) (afterRequestSent : Bool) : ℤ × Bool :=
  let start := if afterRequestSent then stats.wroteRequest else stats.start
  if stats.gotFirstResponseByte = 0 ∨ stats.wroteRequest = 0 then (0, false)
  else
    let res := stats.gotFirstResponseByte - start
    (if res < 0 then 0 else res, true)

/-- PercentileExpectation: a percentile limit threshold with its evaluation
outcome fields. -/
structure PercentileExpectationL where
  percentile : ℚ
  duration : ℤ
  unmet : Bool := false
  actualValue : ℤ := 0
deriving DecidableEq

/-- Loop body of writePercentileDurationExpectations. The percentile
computation of the stats library is a parameter pctl (sample, percentile to
duration in nanoseconds); acc is the unmetExpectation accumulator. Returns
the processed thresholds, whether the evaluation returned early with the
not-enough-values result, and the final unmetExpectation value. A zero
percentile or an insufficient sample returns from the whole function,
leaving that threshold and all later ones untouched. -/
def writePercentileAux (pctl : List ℤ → ℚ → ℤ) (values : List ℤ) :
    List PercentileExpectationL → Bool → List PercentileExpectationL × Bool × Bool
  | [], acc => ([], false, acc)
  | e :: rest, acc =>
    if e.percentile = 0 then (e :: rest, false, acc)
    else if (values.length : ℤ) < ⌈(100 : ℚ) / e.percentile⌉ then (e :: rest, true, acc)
    else
      let actualDuration := pctl values e.percentile
      let r := writePercentileAux pctl values rest (acc || decide (e.duration < actualDuration))
      ({ e with unmet := e.unmet || decide (e.duration < actualDuration),
                actualValue := actualDuration } :: r.1, r.2)

/-- writePercentileDurationExpectations: evaluate a list of percentile
limits against the sample of observed values. -/
def writePercentileDurationExpectations (pctl : List ℤ → ℚ → ℤ)
    (pctlExpcts : List PercentileExpectationL) (values : List ℤ) :
    List PercentileExpectationL × Bool × Bool :=
  writePercentileAux pctl values pctlExpcts false

/-- The update a processed percentile threshold receives: actual value
recorded, Unmet set when the percentile exceeds the configured duration. -/
def processPercentile (pctl : List ℤ → ℚ → ℤ) (values : List ℤ)
    (e : PercentileExpectationL) : PercentileExpectationL :=
  { e with unmet := e.unmet || decide (e.duration < pctl values e.percentile),
           actualValue := pctl values e.percentile }

/-- A percentile threshold the evaluation loop can process: nonzero
percentile and a sample of at least the ceiling of 100 / percentile. -/
def PercentileProcessable (values : List ℤ) (e : PercentileExpectationL) : Prop :=
  e.percentile ≠ 0 ∧ ⌈(100 : ℚ) / e.percentile⌉ ≤ (values.length : ℤ)

/-- A concrete stand-in for the percentile function of the stats library,
used to instantiate counterexamples: the first sample value. On a constant
sorted sample it agrees with the percentile the library computes. -/
def pctlHead (values : List ℤ) (_percentile : ℚ) : ℤ :=
  values.headD 0

/-- StatusCodeExpectation threshold. -/
structure StatusCodeExpectationL where
  isAtLeast : Bool
  statusCode : ℤ
  percentage : ℚ
  unmet : Bool := false
  actualValue : ℚ := 0
deriving DecidableEq

/-- Increment of a status-code counter in a Go map modelled as an
association list keyed by status code. -/
def bumpCode : List (ℤ × ℕ) → ℤ → List (ℤ × ℕ)
  | [], c => [(c, 1)]
  | p :: rest, c => if p.1 = c then (p.1, p.2 + 1) :: rest else p :: bumpCode rest c

/-- The statusCodes map parseStepFile builds: each entry with a positive
status code is counted under its code; entries without a status code
(timeouts and transport errors, code zero) are not. -/
def statusCodesOf (entries : List StepEntryL) : List (ℤ × ℕ) :=
  entries.foldl (fun m e => if 0 < e.statusCode then bumpCode m e.statusCode else m) []

/-- allCounts.Requests of parseStepFile: every entry counts as a request. -/
def requestCountOf (entries : List StepEntryL) : ℕ :=
  entries.length

/-- totalCount in writeStatusCodeExpectations: the sum of the counts in the
statusCodes map. -/
def totalStatusCount (codes : List (ℤ × ℕ)) : ℕ :=
  (codes.map Prod.snd).sum

/-- actualCount in writeStatusCodeExpectations: the map lookup for the
status code of the threshold, zero when absent. -/
def statusCodeCount : List (ℤ × ℕ) → ℤ → ℕ
  | [], _ => 0
  | p :: rest, c => if p.1 = c then p.2 else statusCodeCount rest c

/-- One iteration of writeStatusCodeExpectations: when any status code was
recorded, compute the actual percentage over the recorded codes and mark
the threshold; otherwise leave it untouched. Returns the updated threshold
and whether this iteration set unmetExpectation. -/
def evalStatusCodeExpectation (codes : List (ℤ × ℕ)) (t : StatusCodeExpectationL) :
    StatusCodeExpectationL × Bool :=
  let totalCount := totalStatusCount codes
  let actualCount := statusCodeCount codes t.statusCode
  if 0 < totalCount then
    let actualPercentage : ℚ := (actualCount : ℚ) / (totalCount : ℚ) * 100
    let unmetHere :=
      if t.isAtLeast then decide (actualPercentage < t.percentage)
      else decide (t.percentage < actualPercentage)
    ({ t with unmet := t.unmet || unmetHere, actualValue := actualPercentage }, unmetHere)
  else (t, false)

/-- writeStatusCodeExpectations over the threshold list. -/
def writeStatusCodeExpectations :
    List StatusCodeExpectationL → List (ℤ × ℕ) → List StatusCodeExpectationL × Bool
  | [], _ => ([], false)
  | t :: rest, codes =>
    let p := evalStatusCodeExpectation codes t
    let r := writeStatusCodeExpectations rest codes
    (p.1 :: r.1, p.2 || r.2)

/-- http.Header.Set modelled on an association list: replace the value of
an existing key or append the pair. Keys used by the engine are already in
canonical MIME form, so canonicalization is the identity here. -/
def setHeader : List (String × String) → String → String → List (String × String)
  | [], key, value => [(key, value)]
  | p :: rest, key, value =>
    if p.1 = key then (key, value) :: rest else p :: setHeader rest key value

/-- Header lookup: the value stored for a key. -/
def headerGet : List (String × String) → String → Option String
  | [], _ => none
  | p :: rest, key => if p.1 = key then some p.2 else headerGet rest key

/-- The diagnostic-header injection at the start of
executeRequestWithTracing: when enabled, set the Goverrun-Scenario-Step
header to the scenario title, a colon, a space and the step name, and the
Goverrun-User-Loop header to the user index, a slash and the loop index. -/
def injectTracingHeaders (addScenarioStepHeader addUserLoopHeader : Bool)
    (scenario stepName : String) (currentUser currentLoop : ℤ)
    (headers : List (String × String)) : List (String × String) :=
  let h1 :=
    if addScenarioStepHeader then
      setHeader headers "Goverrun-Scenario-Step" (scenario ++ ": " ++ stepName)
    else headers
  if addUserLoopHeader then
    setHeader h1 "Goverrun-User-Loop" (toString currentUser ++ "/" ++ toString currentLoop)
  else h1

/-- PercentageExpectation threshold. -/
structure PercentageExpectationL where
  percentage : ℚ
  unmet : Bool := false
  actualValue : ℚ := 0
deriving DecidableEq

/-- CountExpectation threshold. -/
structure CountExpectationL where
  count : ℕ
  unmet : Bool := false
  actualValue : ℕ := 0
deriving DecidableEq

/-- RangeExpectation threshold. -/
structure RangeExpectationL where
  min : ℕ
  max : ℕ
  unmet : Bool := false
  actualValue : ℕ := 0
deriving DecidableEq

/-- TypeMatchesThreshold: a root-cause histogram threshold keyed by the
source pattern of its regular expression. -/
structure TypeMatchesThresholdL where
  isAtLeast : Bool
  regExp : String
  percentage : ℚ
  unmet : Bool := false
  actualValue : ℚ := 0
deriving DecidableEq

/-- Expectation: the threshold bundle a step carries. -/
structure ExpectationL where
  successPercentageAtLeast : Option PercentageExpectationL := none
  failurePercentageAtMost : Option PercentageExpectationL := none
  errorPercentageAtMost : Option PercentageExpectationL := none
  timeoutPercentageAtMost : Option PercentageExpectationL := none
  successCountAtLeast : Option CountExpectationL := none
  failureCountAtMost : Option CountExpectationL := none
  errorCountAtMost : Option CountExpectationL := none
  timeoutCountAtMost : Option CountExpectationL := none
  totalRequestResponseTimePercentileLimits : List PercentileExpectationL := []
  timeToFirstBytePercentileLimits : List PercentileExpectationL := []
  timeAfterRequestSentPercentileLimits : List PercentileExpectationL := []
  totalRequestBytesWithin : Option RangeExpectationL := none
  totalResponseBytesWithin : Option RangeExpectationL := none
  statusCodeThresholds : List StatusCodeExpectationL := []
  failureTypeMatchesThresholds : List TypeMatchesThresholdL := []
  errorTypeMatchesThresholds : List TypeMatchesThresholdL := []
  timeoutTypeMatchesThresholds : List TypeMatchesThresholdL := []
deriving DecidableEq

/-- Virtual user: scenario title, indices, Disabled flag. The HTTP client,
cookie jar and the open Data map are not consulted by the verified
operations and are omitted. -/
structure UserL where
  scenario : String := ""
  currentUser : ℤ := 0
  currentLoop : ℤ := 0
  disabled : Bool := false
deriving DecidableEq

/-- Step: name, owning user, mutable expectation. -/
structure StepL where
  name : String
  user : UserL
  expectation : ExpectationL
deriving DecidableEq

/-- isValidPercentage: between 0 and 100 inclusive (the warning log is not
modelled). -/
def isValidPercentage (percentage : ℚ) : Bool :=
  if percentage < 0 ∨ 100 < percentage then false else true

/-- Step.ExpectSuccessPercentageAtLeast. -/
def expectSuccessPercentageAtLeast (step : StepL) (percentage : ℚ) : StepL :=
  if isValidPercentage percentage then
    { step with expectation :=
        { step.expectation with successPercentageAtLeast := some { percentage := percentage } } }
  else step

/-- Step.ExpectFailurePercentageAtMost. -/
def expectFailurePercentageAtMost (step : StepL) (percentage : ℚ) : StepL :=
  if isValidPercentage percentage then
    { step with expectation :=
        { step.expectation with failurePercentageAtMost := some { percentage := percentage } } }
  else step

/-- Step.ExpectErrorPercentageAtMost. -/
def expectErrorPercentageAtMost (step : StepL) (percentage : ℚ) : StepL :=
  if isValidPercentage percentage then
    { step with expectation :=
        { step.expectation with errorPercentageAtMost := some { percentage := percentage } } }
  else step

/-- Step.ExpectTimeoutPercentageAtMost. -/
def expectTimeoutPercentageAtMost (step : StepL) (percentage : ℚ) : StepL :=
  if isValidPercentage percentage then
    { step with expectation :=
        { step.expectation with timeoutPercentageAtMost := some { percentage := percentage } } }
  else step

/-- Step.ExpectTotalRequestResponseTimePercentileLimit. -/
def expectTotalRequestResponseTimePercentileLimit (step : StepL)
    (percentile : ℚ) (duration : ℤ) : StepL :=
  if isValidPercentage percentile then
    { step with expectation :=
        { step.expectation with totalRequestResponseTimePercentileLimits :=
            step.expectation.totalRequestResponseTimePercentileLimits ++
              [{ percentile := percentile, duration := duration }] } }
  else step

/-- Step.ExpectTimeToFirstBytePercentileLimit. -/
def expectTimeToFirstBytePercentileLimit (step : StepL)
    (percentile : ℚ) (duration : ℤ) : StepL :=
  if isValidPercentage percentile then
    { step with expectation :=
        { step.expectation with timeToFirstBytePercentileLimits :=
            step.expectation.timeToFirstBytePercentileLimits ++
              [{ percentile := percentile, duration := duration }] } }
  else step

/-- Step.ExpectTimeAfterRequestSentPercentileLimit. -/
def expectTimeAfterRequestSentPercentileLimit (step : StepL)
    (percentile : ℚ) (duration : ℤ) : StepL :=
  if isValidPercentage percentile then
    { step with expectation :=
        { step.expectation with timeAfterRequestSentPercentileLimits :=
            step.expectation.timeAfterRequestSentPercentileLimits ++
              [{ percentile := percentile, duration := duration }] } }
  else step

/-- Request builder state. The embedded http.Request being assembled (and,
for raw requests, the parsed wire request) is not carried; the user field
is optional because the Go field is a pointer that stays nil in the
skeleton returned for a disabled user. -/
structure RequestL where
  step : Option StepL := none
  method : String := ""
  url : String := ""
  disabled : Bool := false
  raw : Bool := false
  user : Option UserL := none
  timeout : ℤ := 0
deriving DecidableEq

/-- fillRequest: attach step and user to the request. -/
def fillRequest (request : RequestL) (step : StepL) : RequestL :=
  { request with step := some step, user := some step.user }

/-- Step.Request: for a disabled user, a skeleton request with only the
Disabled flag set; otherwise the filled builder. -/
def stepRequest (step : StepL) (method url : String) : RequestL :=
  if step.user.disabled then { disabled := true }
  else fillRequest { method := method, url := url } step

/-- Step.RequestRaw: for a disabled user, the same skeleton (returned
before the wire-format buffer is read); otherwise the filled builder with
the Raw flag (the parsed inner request and target URL are omitted). -/
def stepRequestRaw (step : StepL) : RequestL :=
  if step.user.disabled then { disabled := true }
  else fillRequest { raw := true } step

/-- Result of dispatching a request: a Response, or the run-time panic
raised when executeRequestWithTracing dereferences a nil user pointer
(its first unconditional access is user.Scenario while building the
Response). -/
inductive SendOutcome where
  | response (r : ResponseL)
  | nilUserDereference
deriving DecidableEq

/-- executeRequestWithTracing: panics on the nil user of a skeleton
request; otherwise builds the Response from the transport results (which
are inputs of the model, as in responseAfterSend). -/
def executeRequestWithTracing (request : RequestL) (ts : TimestampsL)
    (doErr readErr : Option GoError) (statusCode : ℤ)
    (status finalURL body : String) (requestSize responseSize : ℤ) : SendOutcome :=
  match request.user with
  | none => .nilUserDereference
  | some u =>
    .response (responseAfterSend u.scenario request.url ts doErr readErr statusCode
      status finalURL body requestSize responseSize)

/-- sendRequest: builds the outgoing http.Request (not carried by the
model) and delegates to executeRequestWithTracing on the user of the
request. It never consults the Disabled flag of the request. -/
def sendRequest (request : RequestL) (ts : TimestampsL)
    (doErr readErr : Option GoError) (statusCode : ℤ)
    (status finalURL body : String) (requestSize responseSize : ℤ) : SendOutcome :=
  executeRequestWithTracing request ts doErr readErr statusCode status finalURL body
    requestSize responseSize

/-- Request.SendWithTimeout. -/
def sendWithTimeout (request : RequestL) (t : ℤ) (ts : TimestampsL)
    (doErr readErr : Option GoError) (statusCode : ℤ)
    (status finalURL body : String) (requestSize responseSize : ℤ) : SendOutcome :=
  sendRequest { request with timeout := t } ts doErr readErr statusCode status finalURL
    body requestSize responseSize

/-- Request.SendWithoutTimeout. -/
def sendWithoutTimeout (request : RequestL) (ts : TimestampsL)
    (doErr readErr : Option GoError) (statusCode : ℤ)
    (status finalURL body : String) (requestSize responseSize : ℤ) : SendOutcome :=
  sendRequest request ts doErr readErr statusCode status finalURL body requestSize
    responseSize

/-- User.ThinkTime: the user and the time actually slept (zero for a
disabled user). -/
def thinkTime (user : UserL) (d : ℕ) : UserL × ℕ :=
  if user.disabled then (user, 0) else (user, d)

/-- LoadConfig fields checked at registration (durations in nanoseconds,
signed as in Go). -/
structure LoadConfigL where
  loopingUsers : ℤ
  rampUp : ℤ
  plateau : ℤ
  rampDown : ℤ
deriving DecidableEq

/-- What AddScenario does: panic (fatal), return an error, or register. -/
inductive AddScenarioOutcome where
  | fatal (msg : String)
  | errored (msg : String)
  | added
deriving DecidableEq

/-- AddScenario over the registry of already registered titles: panics on
a non-positive user count or a negative duration (in the order of the
source checks), returns an error on a duplicate title (the Go message
wraps the title in single quotes, elided here), and otherwise registers
the title. -/
def addScenario (registry : List String) (title : String) (config : LoadConfigL) :
    AddScenarioOutcome × List String :=
  if config.loopingUsers ≤ 0 then (.fatal "zero or negative LoopingUsers", registry)
  else if config.rampUp < 0 then (.fatal "negative RampUp", registry)
  else if config.rampDown < 0 then (.fatal "negative RampDown", registry)
  else if config.plateau < 0 then (.fatal "negative Plateau", registry)
  else if title ∈ registry then (.errored ("scenario already exists " ++ title), registry)
  else (.added, registry ++ [title])

/-- Sample transport error: a network timeout. -/
def sampleTimeoutError : GoError :=
  { isNetError := true, isTimeout := true, rootCause := "context deadline exceeded" }

/-- Sample response on which a timeout was recorded. -/
def responseWithTimeout : ResponseL :=
  { timeout := some sampleTimeoutError }

/-- Sample step owned by a disabled user. -/
def disabledStep : StepL :=
  { name := "open start page", user := { disabled := true }, expectation := {} }

/-- Sample step with the default expectation. -/
def sampleStep : StepL :=
  { name := "submit login", user := {}, expectation := {} }

theorem consideredUnsuccessful_eq_false_iff (r : ResponseL) :
    consideredUnsuccessful r = false ↔
      r.assertionFailed.length = 0 ∧ r.error = none ∧ r.timeout = none := by
  cases hE : r.error <;> cases hT : r.timeout <;>
    simp [consideredUnsuccessful, hE, hT, Nat.le_zero]

theorem applyAssertOp_of_unsuccessful (op : AssertOp) (r : ResponseL)
    (h : consideredUnsuccessful r = true) : applyAssertOp op r = r := by
  cases op <;>
    simp [applyAssertOp, assertFn, assertStatusCode, assertStatus, assertBodyMatches,
      assertBodyContains, assertBodySizeAtLeast, assertBodySizeAtMost, h]

theorem atMostOne_markAsFailed (r : ResponseL) (msg : String)
    (h : consideredUnsuccessful r = false) : AtMostOneFailure (markAsFailed r msg) := by
  obtain ⟨-, he, ht⟩ := (consideredUnsuccessful_eq_false_iff r).mp h
  simp only [AtMostOneFailure, failureCount, markAsFailed, he, ht, Option.isSome_none]
  by_cases hm : 0 < msg.length <;> simp [hm]

theorem applyAssertOp_preserves (op : AssertOp) (r : ResponseL)
    (h : AtMostOneFailure r) : AtMostOneFailure (applyAssertOp op r) := by
  by_cases hu : consideredUnsuccessful r = true
  · rw [applyAssertOp_of_unsuccessful op r hu]; exact h
  · have hf : consideredUnsuccessful r = false := eq_false_of_ne_true hu
    cases op <;>
      simp only [applyAssertOp, assertFn, assertStatusCode, assertStatus, assertBodyMatches,
        assertBodyContains, assertBodySizeAtLeast, assertBodySizeAtMost, hf,
        Bool.false_eq_true, if_false] <;>
      (repeat' split) <;>
      first
        | exact h
        | exact atMostOne_markAsFailed r _ hf

theorem applyAssertOps_preserves (ops : List AssertOp) (r : ResponseL)
    (h : AtMostOneFailure r) : AtMostOneFailure (applyAssertOps ops r) := by
  induction ops generalizing r with
  | nil => exact h
  | cons op rest ih => exact ih (applyAssertOp op r) (applyAssertOp_preserves op r h)

theorem classifyNetError_invariant (r : ResponseL) (e : Option GoError)
    (h : AtMostOneFailure r) (haf : r.assertionFailed = "") :
    AtMostOneFailure (classifyNetError r e) ∧ (classifyNetError r e).assertionFailed = "" := by
  cases e with
  | none => exact ⟨h, haf⟩
  | some err =>
    simp only [classifyNetError]
    split
    · next hc =>
      have he : r.error = none := by
        simpa [Option.isNone_iff_eq_none] using (Bool.and_elim_right hc)
      constructor
      · simp [AtMostOneFailure, failureCount, he, haf]
      · simpa using haf
    · split
      · next hc =>
        have ht : r.timeout = none := by simpa [Option.isNone_iff_eq_none] using hc
        constructor
        · simp [AtMostOneFailure, failureCount, ht, haf]
        · simpa using haf
      · exact ⟨h, haf⟩

theorem responseAfterSend_atMostOne (scenario requestURL : String) (ts : TimestampsL)
    (doErr readErr : Option GoError) (statusCode : ℤ) (status finalURL body : String)
    (requestSize responseSize : ℤ) :
    AtMostOneFailure (responseAfterSend scenario requestURL ts doErr readErr statusCode
      status finalURL body requestSize responseSize) := by
  have h0 : AtMostOneFailure
      ({ scenario := scenario, requestURL := requestURL, timestamps := ts } : ResponseL) := by
    simp [AtMostOneFailure, failureCount]
  have h1 := classifyNetError_invariant _ doErr h0 rfl
  have h2 := classifyNetError_invariant _ readErr h1.1 h1.2
  simpa [responseAfterSend, AtMostOneFailure, failureCount] using h2.1

/-- C1: each assertion operation leaves a Response untouched once an
assertion already failed or an error or timeout was recorded; assertion
chains preserve the at-most-one-failure invariant, and every response the
request engine produces and then runs assertions over has at most one of
Timeout, Error and AssertionFailed set. -/
theorem C1_assertions_short_circuit_and_failures_disjoint
    (op : AssertOp) (ops : List AssertOp) (r : ResponseL)
    (scenario requestURL : String) (ts : TimestampsL) (doErr readErr : Option GoError)
    (statusCode : ℤ) (status finalURL body : String) (requestSize responseSize : ℤ) :
    (consideredUnsuccessful r = true → applyAssertOp op r = r) ∧
    (AtMostOneFailure r → AtMostOneFailure (applyAssertOps ops r)) ∧
    AtMostOneFailure (applyAssertOps ops (responseAfterSend scenario requestURL ts doErr
      readErr statusCode status finalURL body requestSize responseSize)) :=
  ⟨fun h => applyAssertOp_of_unsuccessful op r h,
   fun h => applyAssertOps_preserves ops r h,
   applyAssertOps_preserves ops _ (responseAfterSend_atMostOne scenario requestURL ts doErr
     readErr statusCode status finalURL body requestSize responseSize)⟩

/-- Closed instance of the C1 theorem: a timed-out response is untouched by
a status-code assertion, and a concrete engine-produced response stays
with at most one failure after a failing assertion chain. -/
theorem C1_witness :
    consideredUnsuccessful responseWithTimeout = true ∧
    applyAssertOp (AssertOp.statusCode 200) responseWithTimeout = responseWithTimeout ∧
    AtMostOneFailure (applyAssertOps [AssertOp.statusCode 500, AssertOp.bodyContains "x"]
      (responseAfterSend "s" "u" {} none none 200 "200 OK" "u" "body" 10 20)) :=
  ⟨by decide,
   (C1_assertions_short_circuit_and_failures_disjoint (AssertOp.statusCode 200) []
     responseWithTimeout "" "" {} none none 0 "" "" "" 0 0).1 (by decide),
   (C1_assertions_short_circuit_and_failures_disjoint (AssertOp.statusCode 200)
     [AssertOp.statusCode 500, AssertOp.bodyContains "x"] responseWithTimeout "s" "u" {}
     none none 200 "200 OK" "u" "body" 10 20).2.2⟩

/-- C2 counterexample: when no output folder is configured, the first
ArchiveStats call on a not-yet-archived Response writes no StepEntry at
all, refuting the unconditional claim that every call writes exactly one. -/
theorem C2_counterexample :
    ({} : ResponseL).archived = false ∧ (archiveStats "" [] {}).2.length = 0 := by
  decide

/-- C2 (amended): when an output folder is configured, the first
ArchiveStats call on a Response appends exactly one StepEntry to the step
log, and a repeated call on the resulting Response changes neither the
response nor the log. -/
theorem C2_archive_stats_exactly_once (folder : String) (log : List StepEntryL)
    (r : ResponseL) (hf : 0 < folder.length) (ha : r.archived = false) :
    (archiveStats folder log r).2 = log ++ [stepEntry r] ∧
    archiveStats folder (archiveStats folder log r).2 (archiveStats folder log r).1 =
      ((archiveStats folder log r).1, (archiveStats folder log r).2) := by
  have h1 : archiveStats folder log r =
      ({ r with archived := true }, log ++ [stepEntry r]) := by
    unfold archiveStats
    rw [if_pos ⟨hf, ha⟩]
  rw [h1]
  exact ⟨rfl, by simp [archiveStats]⟩

/-- Closed instance of the C2 theorem at a concrete folder, log and
response. -/
theorem C2_witness :
    0 < "out".length ∧ ({} : ResponseL).archived = false ∧
    (archiveStats "out" [] {}).2 = [] ++ [stepEntry {}] ∧
    archiveStats "out" (archiveStats "out" [] {}).2 (archiveStats "out" [] {}).1 =
      ((archiveStats "out" [] {}).1, (archiveStats "out" [] {}).2) :=
  ⟨by decide, by decide,
   (C2_archive_stats_exactly_once "out" [] {} (by decide) (by decide)).1,
   (C2_archive_stats_exactly_once "out" [] {} (by decide) (by decide)).2⟩

/-- C3: the scheduler computes the run end as now plus ramp-up plus plateau
plus ramp-down, the ramp-down entry as end minus ramp-down, and the
personal cutoff of user i as the entry plus i times the truncated quotient
of ramp-down by the user count; a user whose loop iteration finishes after
its cutoff decrements the looping-users gauge, is marked Disabled, and
executes no further iterations. -/
theorem C3_ramp_down_schedule (now rampUp plateau rampDown loopingUsers i : ℕ)
    (tBefore tAfter : ℕ) (rest : List (ℕ × ℕ)) (gauge : ℤ) (u : UserLoopState)
    (_hi1 : 1 ≤ i) (_hiN : i ≤ loopingUsers)
    (hrun : tBefore < scheduleEnd now rampUp plateau rampDown)
    (hcut : rampDownCutoffForCurrentUser now rampUp plateau rampDown loopingUsers i < tAfter) :
    scheduleEnd now rampUp plateau rampDown = now + rampUp + plateau + rampDown ∧
    rampDownPhaseEntry now rampUp plateau rampDown =
      scheduleEnd now rampUp plateau rampDown - rampDown ∧
    rampDownCutoffForCurrentUser now rampUp plateau rampDown loopingUsers i =
      rampDownPhaseEntry now rampUp plateau rampDown + i * (rampDown / loopingUsers) ∧
    runUserLoop (scheduleEnd now rampUp plateau rampDown)
        (rampDownCutoffForCurrentUser now rampUp plateau rampDown loopingUsers i)
        ((tBefore, tAfter) :: rest) gauge u =
      (gauge - 1,
       { u with currentLoop := u.currentLoop + 1, executionCount := u.executionCount + 1,
                disabled := true }) := by
  refine ⟨rfl, rfl, rfl, ?_⟩
  unfold runUserLoop
  rw [if_pos hrun, if_pos hcut]

/-- Closed instance of the C3 theorem: two looping users, ten seconds of
ramp-down, user one retires at its personal cutoff. -/
theorem C3_witness :
    1 ≤ 1 ∧ 1 ≤ 2 ∧ 34 < scheduleEnd 0 10 20 10 ∧
    rampDownCutoffForCurrentUser 0 10 20 10 2 1 < 36 ∧
    runUserLoop (scheduleEnd 0 10 20 10) (rampDownCutoffForCurrentUser 0 10 20 10 2 1)
        [(34, 36), (50, 60)] 2 {} =
      (1, { currentLoop := 1, executionCount := 1, disabled := true }) :=
  ⟨by decide, by decide, by decide, by decide,
   (C3_ramp_down_schedule 0 10 20 10 2 1 34 36 [(50, 60)] 2 {} (by decide) (by decide)
     (by decide) (by decide)).2.2.2⟩

/-- C4 counterexample: a Timestamps value whose GotFirstResponseByte is set
but whose WroteRequest is unset is reported as not completed even with
afterRequestSent false, refuting the claim that completion only depends on
GotFirstResponseByte in that mode. -/
theorem C4_counterexample :
    (timeToFirstByte
        { start := 1, wroteRequest := 0, gotFirstResponseByte := 5, done := 6 } false).2 =
      false ∧
    ({ start := 1, wroteRequest := 0, gotFirstResponseByte := 5, done := 6 } :
        TimestampsL).gotFirstResponseByte ≠ 0 := by
  decide

/-- C4 (amended): TimeToFirstByte measures GotFirstResponseByte minus Start
(minus WroteRequest with afterRequestSent), clamped to zero when negative,
and is reported as completed exactly when both GotFirstResponseByte and
WroteRequest are set, in either mode. -/
theorem C4_time_to_first_byte (ts : TimestampsL) :
    timeToFirstByte ts false =
      (if ts.gotFirstResponseByte = 0 ∨ ts.wroteRequest = 0 then 0
       else max 0 (ts.gotFirstResponseByte - ts.start),
       decide (ts.gotFirstResponseByte ≠ 0 ∧ ts.wroteRequest ≠ 0)) ∧
    timeToFirstByte ts true =
      (if ts.gotFirstResponseByte = 0 ∨ ts.wroteRequest = 0 then 0
       else max 0 (ts.gotFirstResponseByte - ts.wroteRequest),
       decide (ts.gotFirstResponseByte ≠ 0 ∧ ts.wroteRequest ≠ 0)) := by
  by_cases h : ts.gotFirstResponseByte = 0 ∨ ts.wroteRequest = 0
  · have hd : decide (ts.gotFirstResponseByte ≠ 0 ∧ ts.wroteRequest ≠ 0) = false := by
      rcases h with h | h <;> simp [h]
    constructor <;> simp [timeToFirstByte, h, hd]
  · have hd : decide (ts.gotFirstResponseByte ≠ 0 ∧ ts.wroteRequest ≠ 0) = true := by
      push_neg at h
      simp [h.1, h.2]
    have hmax : ∀ a b : ℤ, (if a < b then 0 else a - b) = max 0 (a - b) := by
      intro a b
      rcases lt_or_le a b with hx | hx
      · simp [hx, max_eq_left (by omega : a - b ≤ 0)]
      · simp [not_lt.mpr hx, max_eq_right (by omega : (0 : ℤ) ≤ a - b)]
    constructor <;> simp [timeToFirstByte, h, hd, hmax]

theorem writePercentileAux_stops (pctl : List ℤ → ℚ → ℤ) (values : List ℤ)
    (pre : List PercentileExpectationL) (e : PercentileExpectationL)
    (rest : List PercentileExpectationL) (acc : Bool)
    (hpre : ∀ x ∈ pre, PercentileProcessable values x)
    (he : e.percentile = 0 ∨ (values.length : ℤ) < ⌈(100 : ℚ) / e.percentile⌉) :
    writePercentileAux pctl values (pre ++ e :: rest) acc =
      (pre.map (processPercentile pctl values) ++ e :: rest,
       decide (e.percentile ≠ 0),
       acc || pre.any fun x => decide (x.duration < pctl values x.percentile)) := by
  induction pre generalizing acc with
  | nil =>
    by_cases h0 : e.percentile = 0
    · simp only [List.nil_append, writePercentileAux, if_pos h0, List.map_nil, List.any_nil,
        Bool.or_false]
      simp [h0]
    · have hins : (values.length : ℤ) < ⌈(100 : ℚ) / e.percentile⌉ := he.resolve_left h0
      simp only [List.nil_append, writePercentileAux, if_neg h0, if_pos hins, List.map_nil,
        List.any_nil, Bool.or_false]
      simp [h0]
  | cons x pre ih =>
    have hx := hpre x (List.mem_cons_self x pre)
    have hpre2 : ∀ y ∈ pre, PercentileProcessable values y := fun y hy =>
      hpre y (List.mem_cons_of_mem x hy)
    simp only [List.cons_append, writePercentileAux, if_neg hx.1, if_neg (not_lt.mpr hx.2),
      List.append_eq]
    rw [ih _ hpre2]
    simp [processPercentile, Bool.or_assoc]

/-- C5 counterexample: with thresholds at percentile 1 (needing 100 values)
then percentile 50 (needing 2) over the two-value sample 5, 5, the
evaluation returns the not-enough-values result at the first threshold and
leaves the second threshold unmarked, although its sample is sufficient
and its percentile (5) exceeds its configured duration (0) — refuting the
claim that a threshold with sufficient data is Unmet exactly when its
percentile exceeds the duration. -/
theorem C5_counterexample :
    writePercentileDurationExpectations pctlHead
        [{ percentile := 1, duration := 0 }, { percentile := 50, duration := 0 }] [5, 5] =
      ([{ percentile := 1, duration := 0 }, { percentile := 50, duration := 0 }],
       true, false) ∧
    ⌈(100 : ℚ) / 50⌉ ≤ (([5, 5] : List ℤ).length : ℤ) ∧
    (0 : ℤ) < pctlHead [5, 5] 50 := by
  refine ⟨?_, by norm_num [Int.ceil_ofNat], by norm_num [pctlHead]⟩
  show writePercentileAux pctlHead [5, 5]
      [{ percentile := 1, duration := 0 }, { percentile := 50, duration := 0 }] false = _
  rw [writePercentileAux, if_neg (by norm_num), if_pos (by norm_num [Int.ceil_ofNat])]

/-- C5 (amended): the percentile evaluation processes thresholds in order;
at the first threshold whose sample is smaller than the ceiling of 100
divided by its percentile it returns early with the not-enough-values
result, leaving that threshold and every later one untouched — thresholds
already processed keep their marks, and each processed threshold is Unmet
exactly when its percentile of the sample exceeds its configured
duration. -/
theorem C5_percentile_insufficient_data (pctl : List ℤ → ℚ → ℤ) (values : List ℤ)
    (pre rest : List PercentileExpectationL) (e : PercentileExpectationL)
    (hpre : ∀ x ∈ pre, PercentileProcessable values x)
    (hunmet : ∀ x ∈ pre, x.unmet = false)
    (he : (values.length : ℤ) < ⌈(100 : ℚ) / e.percentile⌉) :
    writePercentileDurationExpectations pctl (pre ++ e :: rest) values =
      (pre.map (processPercentile pctl values) ++ e :: rest,
       decide (e.percentile ≠ 0),
       pre.any fun x => decide (x.duration < pctl values x.percentile)) ∧
    ∀ x ∈ pre, ((processPercentile pctl values x).unmet = true ↔
      x.duration < pctl values x.percentile) := by
  constructor
  · have h := writePercentileAux_stops pctl values pre e rest false hpre (Or.inr he)
    simpa [writePercentileDurationExpectations] using h
  · intro x hx
    simp [processPercentile, hunmet x hx]

/-- Closed instance of the C5 theorem: one processed threshold at
percentile 50, stopped by a percentile-1 threshold over a two-value
sample. -/
theorem C5_witness :
    ((2 : ℤ) < ⌈(100 : ℚ) / 1⌉) ∧
    ((processPercentile pctlHead [5, 5] { percentile := 50, duration := 0 }).unmet = true ↔
      (0 : ℤ) < pctlHead [5, 5] 50) :=
  ⟨by norm_num [Int.ceil_ofNat],
   (C5_percentile_insufficient_data pctlHead [5, 5] [{ percentile := 50, duration := 0 }]
      [] { percentile := 1, duration := 7 }
      (by
        intro x hx
        rw [List.mem_singleton] at hx
        subst hx
        unfold PercentileProcessable
        exact ⟨by norm_num, by norm_num [Int.ceil_ofNat]⟩)
      (by
        intro x hx
        rw [List.mem_singleton] at hx
        subst hx
        rfl)
      (by norm_num [Int.ceil_ofNat])).2
     { percentile := 50, duration := 0 } (List.mem_singleton.mpr rfl)⟩

/-- C6 (code defect): Step.Request, Step.RequestRaw and ThinkTime are
no-ops returning skeleton objects for a disabled user, but sending the
skeleton request crashes: sendRequest never consults the Disabled flag of
the request and executeRequestWithTracing dereferences its nil user. -/
theorem C6_disabled_send_dereferences_nil_user (step : StepL) (method url : String)
    (d : ℕ) (t : ℤ) (ts : TimestampsL) (doErr readErr : Option GoError) (statusCode : ℤ)
    (status finalURL body : String) (requestSize responseSize : ℤ)
    (hdis : step.user.disabled = true) :
    stepRequest step method url = { disabled := true } ∧
    stepRequestRaw step = { disabled := true } ∧
    thinkTime step.user d = (step.user, 0) ∧
    sendWithTimeout (stepRequest step method url) t ts doErr readErr statusCode status
      finalURL body requestSize responseSize = SendOutcome.nilUserDereference ∧
    sendWithoutTimeout (stepRequest step method url) ts doErr readErr statusCode status
      finalURL body requestSize responseSize = SendOutcome.nilUserDereference := by
  have h1 : stepRequest step method url = { disabled := true } := by
    simp [stepRequest, hdis]
  refine ⟨h1, by simp [stepRequestRaw, hdis], by simp [thinkTime, hdis], ?_, ?_⟩
  · rw [h1]; rfl
  · rw [h1]; rfl

/-- Closed instance of the C6 theorem at a concrete disabled user: the
builder calls are no-ops and the send crashes instead of returning a
skeleton response. -/
theorem C6_witness :
    disabledStep.user.disabled = true ∧
    stepRequest disabledStep "GET" "http://host/x" = { disabled := true } ∧
    thinkTime disabledStep.user 7 = (disabledStep.user, 0) ∧
    sendWithTimeout (stepRequest disabledStep "GET" "http://host/x") 3 {} none none 0 ""
      "" "" 0 0 = SendOutcome.nilUserDereference :=
  ⟨rfl,
   (C6_disabled_send_dereferences_nil_user disabledStep "GET" "http://host/x" 7 3 {} none
     none 0 "" "" "" 0 0 rfl).1,
   (C6_disabled_send_dereferences_nil_user disabledStep "GET" "http://host/x" 7 3 {} none
     none 0 "" "" "" 0 0 rfl).2.2.1,
   (C6_disabled_send_dereferences_nil_user disabledStep "GET" "http://host/x" 7 3 {} none
     none 0 "" "" "" 0 0 rfl).2.2.2.1⟩

/-- C7 counterexample: registering a duplicate title with a valid load
configuration is not fatal — AddScenario returns an error value and leaves
the registry unchanged, refuting the claim that a duplicate title is a
fatal configuration error like the numeric checks. -/
theorem C7_counterexample :
    addScenario ["view standings"] "view standings"
        { loopingUsers := 3, rampUp := 0, plateau := 0, rampDown := 0 } =
      (AddScenarioOutcome.errored "scenario already exists view standings",
       ["view standings"]) := by
  decide

/-- C7 (amended): AddScenario panics on a non-positive LoopingUsers or a
negative RampUp, RampDown or Plateau (checked in that order); with a valid
configuration a duplicate title yields a returned error and no change to
the registry, and otherwise the scenario is registered. -/
theorem C7_add_scenario_validation (registry : List String) (title : String)
    (config : LoadConfigL) :
    (config.loopingUsers ≤ 0 →
      addScenario registry title config =
        (AddScenarioOutcome.fatal "zero or negative LoopingUsers", registry)) ∧
    (0 < config.loopingUsers → config.rampUp < 0 →
      addScenario registry title config =
        (AddScenarioOutcome.fatal "negative RampUp", registry)) ∧
    (0 < config.loopingUsers → 0 ≤ config.rampUp → config.rampDown < 0 →
      addScenario registry title config =
        (AddScenarioOutcome.fatal "negative RampDown", registry)) ∧
    (0 < config.loopingUsers → 0 ≤ config.rampUp → 0 ≤ config.rampDown →
      config.plateau < 0 →
      addScenario registry title config =
        (AddScenarioOutcome.fatal "negative Plateau", registry)) ∧
    (0 < config.loopingUsers → 0 ≤ config.rampUp → 0 ≤ config.rampDown →
      0 ≤ config.plateau → title ∈ registry →
      addScenario registry title config =
        (AddScenarioOutcome.errored ("scenario already exists " ++ title), registry)) ∧
    (0 < config.loopingUsers → 0 ≤ config.rampUp → 0 ≤ config.rampDown →
      0 ≤ config.plateau → title ∉ registry →
      addScenario registry title config = (AddScenarioOutcome.added, registry ++ [title])) := by
  unfold addScenario
  refine ⟨?_, ?_, ?_, ?_, ?_, ?_⟩ <;> intros
  · rw [if_pos (by omega)]
  · rw [if_neg (by omega), if_pos (by omega)]
  · rw [if_neg (by omega), if_neg (by omega), if_pos (by omega)]
  · rw [if_neg (by omega), if_neg (by omega), if_neg (by omega), if_pos (by omega)]
  · rw [if_neg (by omega), if_neg (by omega), if_neg (by omega), if_neg (by omega),
      if_pos (by assumption)]
  · rw [if_neg (by omega), if_neg (by omega), if_neg (by omega), if_neg (by omega),
      if_neg (by assumption)]

/-- Closed instance of the C7 theorem: a zero user count panics, and a
fresh title with a valid configuration registers. -/
theorem C7_witness :
    (0 : ℤ) ≤ 0 ∧
    addScenario [] "a" { loopingUsers := 0, rampUp := 0, plateau := 0, rampDown := 0 } =
      (AddScenarioOutcome.fatal "zero or negative LoopingUsers", []) ∧
    addScenario [] "a" { loopingUsers := 3, rampUp := 1, plateau := 2, rampDown := 3 } =
      (AddScenarioOutcome.added, ["a"]) :=
  ⟨by decide,
   (C7_add_scenario_validation [] "a"
     { loopingUsers := 0, rampUp := 0, plateau := 0, rampDown := 0 }).1 (by decide),
   (C7_add_scenario_validation [] "a"
     { loopingUsers := 3, rampUp := 1, plateau := 2, rampDown := 3 }).2.2.2.2.2 (by decide)
     (by decide) (by decide) (by decide) (by simp)⟩

theorem totalStatusCount_bump (m : List (ℤ × ℕ)) (c : ℤ) :
    totalStatusCount (bumpCode m c) = totalStatusCount m + 1 := by
  induction m with
  | nil => rfl
  | cons p rest ih =>
    by_cases h : p.1 = c
    · simp only [bumpCode, if_pos h, totalStatusCount, List.map_cons, List.sum_cons]
      omega
    · simp only [bumpCode, if_neg h, totalStatusCount, List.map_cons, List.sum_cons]
      have := ih
      simp only [totalStatusCount] at this
      omega

theorem statusCodeCount_bump_self (m : List (ℤ × ℕ)) (c : ℤ) :
    statusCodeCount (bumpCode m c) c = statusCodeCount m c + 1 := by
  induction m with
  | nil => simp [bumpCode, statusCodeCount]
  | cons p rest ih =>
    by_cases h : p.1 = c
    · simp [bumpCode, h, statusCodeCount]
    · simp [bumpCode, h, statusCodeCount, ih]

theorem statusCodeCount_bump_other (m : List (ℤ × ℕ)) (c k : ℤ) (h : k ≠ c) :
    statusCodeCount (bumpCode m c) k = statusCodeCount m k := by
  have hck : ¬ c = k := fun hh => h hh.symm
  induction m with
  | nil => simp [bumpCode, statusCodeCount, hck]
  | cons p rest ih =>
    by_cases hp : p.1 = c
    · have hpk : ¬ p.1 = k := by rw [hp]; exact hck
      simp [bumpCode, hp, statusCodeCount, hpk, hck]
    · by_cases hk : p.1 = k
      · simp [bumpCode, hp, statusCodeCount, hk, h, hck]
      · simp [bumpCode, hp, statusCodeCount, hk, ih]

theorem statusCodesOf_total_aux (entries : List StepEntryL) (m : List (ℤ × ℕ)) :
    totalStatusCount (entries.foldl
        (fun m e => if 0 < e.statusCode then bumpCode m e.statusCode else m) m) =
      totalStatusCount m + (entries.filter fun e => decide (0 < e.statusCode)).length := by
  induction entries generalizing m with
  | nil => simp
  | cons e rest ih =>
    simp only [List.foldl_cons, List.filter_cons]
    by_cases h : 0 < e.statusCode
    · rw [if_pos h, ih]
      simp [h, totalStatusCount_bump]
      omega
    · rw [if_neg h, ih]
      simp [h]

theorem statusCodesOf_count_aux (entries : List StepEntryL) (m : List (ℤ × ℕ)) (c : ℤ) :
    statusCodeCount (entries.foldl
        (fun m e => if 0 < e.statusCode then bumpCode m e.statusCode else m) m) c =
      statusCodeCount m c +
        (entries.filter fun e => decide (e.statusCode = c ∧ 0 < e.statusCode)).length := by
  induction entries generalizing m with
  | nil => simp
  | cons e rest ih =>
    simp only [List.foldl_cons, List.filter_cons]
    by_cases hpos : 0 < e.statusCode
    · by_cases heq : e.statusCode = c
      · have hposc : 0 < c := heq ▸ hpos
        rw [if_pos hpos, ih, heq, statusCodeCount_bump_self]
        simp [heq, hposc, hpos]
        omega
      · rw [if_pos hpos, ih, statusCodeCount_bump_other m e.statusCode c
          (fun hh => heq hh.symm)]
        simp [heq, hpos]
    · rw [if_neg hpos, ih]
      simp [hpos]

/-- C8 counterexample: a step log with one 200 response and one timeout
(no status code recorded): the at-least-100-percent threshold on code 200
is left met, because the code divides by the recorded status codes (one),
while the fraction over the step requests claimed by the spec is 50
percent and would be unmet. -/
theorem C8_counterexample :
    statusCodesOf [{ statusCode := 200 }, { timeout := true, timeoutRootCause := "t" }] =
      [(200, 1)] ∧
    (writeStatusCodeExpectations [{ isAtLeast := true, statusCode := 200, percentage := 100 }]
        [(200, 1)]).1 =
      [{ isAtLeast := true, statusCode := 200, percentage := 100, unmet := false,
         actualValue := 100 }] ∧
    requestCountOf [{ statusCode := 200 }, { timeout := true, timeoutRootCause := "t" }] = 2 ∧
    ((statusCodeCount [(200, 1)] 200 : ℚ) /
        (requestCountOf [{ statusCode := 200 }, { timeout := true, timeoutRootCause := "t" }] : ℚ) *
        100 < 100) := by
  refine ⟨?_, ?_, rfl, ?_⟩
  · norm_num [statusCodesOf, bumpCode]
  · norm_num [writeStatusCodeExpectations, evalStatusCodeExpectation, totalStatusCount,
      statusCodeCount]
  · norm_num [statusCodeCount, requestCountOf]

/-- C8 (amended): a StatusCodePercentageAtLeast or AtMost threshold is
evaluated against the fraction of the status-code-bearing requests of the
step (those that received a status code) that returned the configured
code; when at least one status code was recorded, the threshold is Unmet
exactly when that fraction violates the bound. -/
theorem C8_status_code_percentages (entries : List StepEntryL) (t : StatusCodeExpectationL)
    (h0 : t.unmet = false) (hpos : 0 < totalStatusCount (statusCodesOf entries)) :
    totalStatusCount (statusCodesOf entries) =
      (entries.filter fun e => decide (0 < e.statusCode)).length ∧
    statusCodeCount (statusCodesOf entries) t.statusCode =
      (entries.filter fun e => decide (e.statusCode = t.statusCode ∧ 0 < e.statusCode)).length ∧
    ((evalStatusCodeExpectation (statusCodesOf entries) t).1.unmet = true ↔
      if t.isAtLeast then
        (statusCodeCount (statusCodesOf entries) t.statusCode : ℚ) /
            (totalStatusCount (statusCodesOf entries) : ℚ) * 100 < t.percentage
      else
        t.percentage < (statusCodeCount (statusCodesOf entries) t.statusCode : ℚ) /
            (totalStatusCount (statusCodesOf entries) : ℚ) * 100) := by
  refine ⟨?_, ?_, ?_⟩
  · have h := statusCodesOf_total_aux entries []
    simpa [statusCodesOf, totalStatusCount] using h
  · have h := statusCodesOf_count_aux entries [] t.statusCode
    simpa [statusCodesOf, statusCodeCount] using h
  · unfold evalStatusCodeExpectation
    rw [if_pos hpos]
    cases ht : t.isAtLeast <;> simp [ht, h0]

/-- Closed instance of the C8 theorem at the counterexample step log. -/
theorem C8_witness :
    ({ isAtLeast := true, statusCode := 200, percentage := 100 } :
        StatusCodeExpectationL).unmet = false ∧
    0 < totalStatusCount (statusCodesOf
        [{ statusCode := 200 }, { timeout := true, timeoutRootCause := "t" }]) ∧
    ((evalStatusCodeExpectation (statusCodesOf
          [{ statusCode := 200 }, { timeout := true, timeoutRootCause := "t" }])
        { isAtLeast := true, statusCode := 200, percentage := 100 }).1.unmet = true ↔
      if ({ isAtLeast := true, statusCode := 200, percentage := 100 } :
          StatusCodeExpectationL).isAtLeast then
        (statusCodeCount (statusCodesOf
              [{ statusCode := 200 }, { timeout := true, timeoutRootCause := "t" }]) 200 : ℚ) /
            (totalStatusCount (statusCodesOf
              [{ statusCode := 200 }, { timeout := true, timeoutRootCause := "t" }]) : ℚ) *
            100 < 100
      else
        100 < (statusCodeCount (statusCodesOf
              [{ statusCode := 200 }, { timeout := true, timeoutRootCause := "t" }]) 200 : ℚ) /
            (totalStatusCount (statusCodesOf
              [{ statusCode := 200 }, { timeout := true, timeoutRootCause := "t" }]) : ℚ) *
            100) :=
  ⟨rfl, by norm_num [statusCodesOf, bumpCode, totalStatusCount],
   (C8_status_code_percentages
     [{ statusCode := 200 }, { timeout := true, timeoutRootCause := "t" }]
     { isAtLeast := true, statusCode := 200, percentage := 100 } rfl
     (by norm_num [statusCodesOf, bumpCode, totalStatusCount])).2.2⟩

theorem headerGet_setHeader_self (h : List (String × String)) (k v : String) :
    headerGet (setHeader h k v) k = some v := by
  induction h with
  | nil => simp [setHeader, headerGet]
  | cons p rest ih =>
    by_cases hp : p.1 = k
    · simp [setHeader, hp, headerGet]
    · simp [setHeader, hp, headerGet, ih]

theorem headerGet_setHeader_other (h : List (String × String)) (k1 k2 v : String)
    (hne : k1 ≠ k2) : headerGet (setHeader h k2 v) k1 = headerGet h k1 := by
  have hck : ¬ k2 = k1 := fun hh => hne hh.symm
  induction h with
  | nil => simp [setHeader, headerGet, hck]
  | cons p rest ih =>
    by_cases hp : p.1 = k2
    · have hp1 : ¬ p.1 = k1 := by rw [hp]; exact hck
      simp [setHeader, hp, headerGet, hp1, hck]
    · by_cases hk : p.1 = k1
      · simp [setHeader, hp, headerGet, hk, hne, hck]
      · simp [setHeader, hp, headerGet, hk, ih]

/-- C9 counterexample: with both diagnostic headers enabled, no header
named Scenario-Step or User-Loop is present on the outgoing request — the
injected names carry a Goverrun- prefix. -/
theorem C9_counterexample :
    headerGet (injectTracingHeaders true true "view standings" "open start page" 1 2 [])
        "Scenario-Step" = none ∧
    headerGet (injectTracingHeaders true true "view standings" "open start page" 1 2 [])
        "User-Loop" = none := by
  constructor <;>
    simp [injectTracingHeaders, setHeader, headerGet]

/-- C9 (amended): with the diagnostic headers enabled, every outgoing
request carries a Goverrun-Scenario-Step header valued with the scenario
title, a colon and a space, and the step name, and a Goverrun-User-Loop
header valued with the user index, a slash and the loop index. -/
theorem C9_tracing_headers (scenario stepName : String) (currentUser currentLoop : ℤ)
    (headers : List (String × String)) :
    headerGet (injectTracingHeaders true true scenario stepName currentUser currentLoop
        headers) "Goverrun-Scenario-Step" = some (scenario ++ ": " ++ stepName) ∧
    headerGet (injectTracingHeaders true true scenario stepName currentUser currentLoop
        headers) "Goverrun-User-Loop" =
      some (toString currentUser ++ "/" ++ toString currentLoop) := by
  unfold injectTracingHeaders
  simp only [if_true]
  constructor
  · rw [headerGet_setHeader_other _ _ _ _ (by decide), headerGet_setHeader_self]
  · rw [headerGet_setHeader_self]

/-- C10: passing a percentage or percentile outside 0 to 100 to any of the
percentage or percentile expectation setters leaves the step (and its
Expectation) unchanged: the invalid threshold is silently dropped. -/
theorem C10_invalid_percentage_dropped (step : StepL) (p : ℚ) (d : ℤ)
    (hp : p < 0 ∨ 100 < p) :
    expectSuccessPercentageAtLeast step p = step ∧
    expectFailurePercentageAtMost step p = step ∧
    expectErrorPercentageAtMost step p = step ∧
    expectTimeoutPercentageAtMost step p = step ∧
    expectTotalRequestResponseTimePercentileLimit step p d = step ∧
    expectTimeToFirstBytePercentileLimit step p d = step ∧
    expectTimeAfterRequestSentPercentileLimit step p d = step := by
  have hv : isValidPercentage p = false := by
    unfold isValidPercentage
    rw [if_pos hp]
  refine ⟨?_, ?_, ?_, ?_, ?_, ?_, ?_⟩ <;>
    simp [expectSuccessPercentageAtLeast, expectFailurePercentageAtMost,
      expectErrorPercentageAtMost, expectTimeoutPercentageAtMost,
      expectTotalRequestResponseTimePercentileLimit, expectTimeToFirstBytePercentileLimit,
      expectTimeAfterRequestSentPercentileLimit, hv]

/-- Closed instance of the C10 theorem at percentage 101. -/
theorem C10_witness :
    ((101 : ℚ) < 0 ∨ (100 : ℚ) < 101) ∧
    expectSuccessPercentageAtLeast sampleStep 101 = sampleStep ∧
    expectTotalRequestResponseTimePercentileLimit sampleStep 101 5 = sampleStep :=
  ⟨Or.inr (by norm_num),
   (C10_invalid_percentage_dropped sampleStep 101 5 (Or.inr (by norm_num))).1,
   (C10_invalid_percentage_dropped sampleStep 101 5 (Or.inr (by norm_num))).2.2.2.2.1⟩

end Goverrun
